import Mathlib

/-!
Shallow embedding of the two Python source files of OpenGamepadUI-steam:
`scripts/server/server.py` (a JSON-RPC websocket gateway over a caching
Steam client) and `scripts/app_info.py` (a CLI command fetching product
info).  External collaborators (the `CachingSteamClient` library, the CDN
client, the remote backend) are modelled as explicit inputs: the outcome
of `client.login` is a parameter, the backend catalog response is a
parameter, and the on-disk user-data store is an explicit map from path
to file contents.
-/

namespace SteamGateway

/-- Outcome values of the external client library login call
(`steam.enums.EResult`); the server code never inspects them, it only
forwards them. -/
inductive EResult where
  | OK
  | InvalidPassword
  | RateLimitExceeded
  | ServiceUnavailable
  | AccountLoginDeniedNeedTwoFactor
  deriving DecidableEq, Repr

/-- A JSON-RPC method result as produced by the `jsonrpcserver` library:
either a `Success` payload or a structured `Error`. -/
inductive RpcResult (α : Type) where
  | Success (val : α)
  | Error (code : Int) (msg : String)
  deriving DecidableEq, Repr

/-- The on-disk user-data store (`steamctl.utils.storage.UserDataFile`):
a map from relative path to file contents.  `none` models a file that
does not exist. -/
def FileStore : Type := String → Option String

/-- Reading `UserDataFile(p).read_text()`; `isSome` of this models
`UserDataFile(p).exists()`. -/
def FileStore.read (fs : FileStore) (p : String) : Option String := fs p

/-- Writing `UserDataFile(p).write_text(v)`. -/
def FileStore.write (fs : FileStore) (p v : String) : FileStore :=
  fun q => if q = p then some v else fs q

/-- The mutable fields of the shared `CachingSteamClient` instance that
`server.py` assigns to (`client.username`, `client.login_key`). -/
structure ClientState where
  username : Option String
  login_key : Option String
  deriving DecidableEq, Repr

/-- Embedding of `relogin_available()` (server.py lines 34-47).  It reads
`client/lastuser`; if absent it returns `False`.  Otherwise it reads the
per-user key file `client/<user>.key`; if absent it returns `False`.
Otherwise it assigns `client.username` and `client.login_key` and returns
`True`.  The pair is (returned boolean, client state after the call). -/
def relogin_available (fs : FileStore) (c : ClientState) :
    RpcResult Bool × ClientState :=
  match fs.read "client/lastuser" with
  | none => (.Success false, c)
  | some user =>
    match fs.read ("client/" ++ user ++ ".key") with
    | none => (.Success false, c)
    | some key =>
      (.Success true, { c with username := some user, login_key := some key })

/-- Embedding of `login(user, ...)` (server.py lines 57-72).  The outcome
of the external `client.login(...)` call is the parameter `result`.  The
function then writes `user` to `client/lastuser` unconditionally and
returns `Success(result)`.  The pair is (RPC result, file store after the
call). -/
def login (user : String) (result : EResult) (fs : FileStore) :
    RpcResult EResult × FileStore :=
  (.Success result, fs.write "client/lastuser" user)

/-- One entry of the `common` section of an app in the backend catalog
response: the fields the reviewed code accesses (`type`, `name`), each
optional, plus the remaining fields of the dictionary. -/
structure AppCommon where
  type : Option String
  name : Option String
  extra : List (String × String)
  deriving DecidableEq, Repr

/-- One app document of the `apps` mapping of the backend response: an
optional `common` section plus the remaining fields. -/
structure AppInfo where
  common : Option AppCommon
  extra : List (String × String)
  deriving DecidableEq, Repr

/-- The `apps` mapping of a backend catalog response: app identifier to
app document, in iteration order. -/
abbrev AppsMap : Type := List (Nat × AppInfo)

/-- The filtered dictionary built by the loop of `get_product_info`
(server.py lines 96-104): keep an entry when the app has a `common`
section, that section has a `type` field, and the type equals `"game"`
exactly (no lowercasing here); the kept value is the `common` section. -/
def gpi_filtered (data : AppsMap) : List (Nat × AppCommon) :=
  data.filterMap fun p =>
    match p.2.common with
    | none => none
    | some c =>
      match c.type with
      | none => none
      | some t => if t = "game" then some (p.1, c) else none

/-- Embedding of `get_product_info(apps=...)` (server.py lines 76-106).
The backend response `client.get_product_info(apps=apps)` is the
parameter: `none` models a falsy response, `some data` a response whose
`apps` key holds `data`.  On a falsy response it returns `Success({})`.
Otherwise it builds the filtered dictionary of lines 96-104 into the
local variable `apps` and then returns `Success(data)` - the unfiltered
mapping. -/
def get_product_info (backend : Option AppsMap) : RpcResult AppsMap :=
  match backend with
  | none => .Success []
  | some data =>
    let _apps := gpi_filtered data
    .Success data

/-- The Python `str.lower()` used by the reviewed code (server.py line
127), as ASCII lowering over the character list of the string; this
agrees with `String.toLower` and is kernel-evaluable. -/
def pyLower (s : String) : String := String.mk (s.data.map Char.toLower)

/-- Embedding of `get_product_name(apps=...)` (server.py lines 109-133).
On a falsy backend response it returns `Success({})`.  Otherwise it keeps
an entry when the app has a `common` section with a `type` field whose
lowercase form equals `"game"` and with a `name` field, mapping the app
identifier to that name. -/
def get_product_name (backend : Option AppsMap) :
    RpcResult (List (Nat × String)) :=
  match backend with
  | none => .Success []
  | some data =>
    .Success (data.filterMap fun p =>
      match p.2.common with
      | none => none
      | some c =>
        match c.type with
        | none => none
        | some t =>
          if pyLower t = "game" then
            match c.name with
            | none => none
            | some n => some (p.1, n)
          else none)

/-- Embedding of `list_apps()` (server.py lines 136-142): the CDN
client field `licensed_app_ids` is the parameter; the method returns the
sorted list of its elements. -/
def list_apps (licensed : Finset ℕ) : RpcResult (List ℕ) :=
  .Success (licensed.sort (· ≤ ·))

end SteamGateway

namespace AppInfoCmd

open SteamGateway (AppsMap)

/-- The CLI arguments `cmd_apps_product_info` reads
(`args.skip_licenses`, `args.app_ids`). -/
structure Args where
  skip_licenses : Bool
  app_ids : List Nat
  deriving DecidableEq, Repr

/-- The session facts the command consults on the external client:
whether `s.licenses` is non-empty and whether `s.steam_id.type` is
`EType.AnonUser`. -/
structure SessionInfo where
  has_licenses : Bool
  is_anon : Bool
  deriving DecidableEq, Repr

/-- Observable outcome of `cmd_apps_product_info`: a license error
(return 1 with an `AccessDenied` log naming the app id, before any
fetch), an empty fetch result (return 1, "No results"), or a successful
dump of the fetched `apps` mapping. -/
inductive CmdOutcome where
  | licenseError (app_id : Nat)
  | fetchEmpty
  | ok (data : AppsMap)
  deriving DecidableEq, Repr

/-- Trace of one run of the command: whether the
`wait_event(EMsg.ClientLicenseList, raises=False, ...)` call happened,
whether the catalog fetch `s.get_product_info(...)` was issued, and the
outcome. -/
structure CmdTrace where
  waited : Bool
  fetch_issued : Bool
  outcome : CmdOutcome
  deriving DecidableEq, Repr

/-- The first requested app id that is not in the licensed CDN
set - the one the `for` loop of app_info.py lines 51-58 reports. -/
def firstUnlicensed (app_ids : List Nat) (licensed : Finset Nat) :
    Option Nat :=
  app_ids.find? fun a => decide (a ∉ licensed)

/-- The fetch-and-dump tail of the command (app_info.py lines 60-68),
with the backend response as parameter (`none` models a falsy result). -/
def fetchStep (w : Bool) (backend : Option AppsMap) : CmdTrace :=
  match backend with
  | none => { waited := w, fetch_issued := true, outcome := .fetchEmpty }
  | some data => { waited := w, fetch_issued := true, outcome := .ok data }

/-- Embedding of `cmd_apps_product_info` (app_info.py lines 40-68).  When
`skip_licenses` is not set: the command waits for the license-list event
exactly when the session has no licenses and is not anonymous (line 45),
loads the CDN licenses, and returns a `licenseError` for the first
unlicensed requested app id, without fetching; only when every requested
id is licensed does it issue the fetch.  When `skip_licenses` is set it
fetches directly. -/
def cmd_apps_product_info (args : Args) (s : SessionInfo)
    (licensed : Finset Nat) (backend : Option AppsMap) : CmdTrace :=
  if args.skip_licenses then
    fetchStep false backend
  else
    let w := !s.has_licenses && !s.is_anon
    match firstUnlicensed args.app_ids licensed with
    | some a => { waited := w, fetch_issued := false, outcome := .licenseError a }
    | none => fetchStep w backend

end AppInfoCmd

namespace SessionSpec

/-- Modelled from the spec: the authentication states of the single live
Session (`LoggedOut | Authenticating | LoggedIn | Disconnected`).  The
session state machine lives in the external client library and is not
under src/. -/
inductive AuthState where
  | LoggedOut
  | Authenticating
  | LoggedIn
  | Disconnected
  deriving DecidableEq, Repr

/-- Modelled from the spec: the typed error an operation raises when it
requires `LoggedIn` and observes another state. -/
inductive SessionError where
  | NotAuthenticated
  deriving DecidableEq, Repr

/-- Modelled from the spec: `logout()` tears down the connection and
transitions to `LoggedOut`; idempotent. -/
def logout (_s : AuthState) : AuthState := .LoggedOut

/-- Modelled from the spec: `list_apps()` requires `LoggedIn`; in any
other state it fails with `NotAuthenticated` rather than blocking.  In
`LoggedIn` it returns the sorted entitled identifiers, as the src
embedding `SteamGateway.list_apps` does.  The authentication gating is
implemented by the external client library, not under src/. -/
def list_apps_gated (s : AuthState) (licensed : Finset Nat) :
    Except SessionError (List Nat) :=
  match s with
  | .LoggedIn => .ok (licensed.sort (· ≤ ·))
  | _ => .error .NotAuthenticated

end SessionSpec

namespace Fixtures

open SteamGateway

/-- A user-data store holding only `client/lastuser` with content `bob`. -/
def fsLastOnly : FileStore :=
  fun p => if p = "client/lastuser" then some "bob" else none

/-- A user-data store holding `client/lastuser` (content `bob`) and the
key file `client/bob.key`. -/
def fsBoth : FileStore :=
  fun p =>
    if p = "client/lastuser" then some "bob"
    else if p = "client/bob.key" then some "sessionkey"
    else none

/-- The empty user-data store. -/
def fsEmpty : FileStore := fun _ => none

/-- A client state with no username and no login key. -/
def c0 : ClientState := { username := none, login_key := none }

/-- A backend apps mapping with one game entry carrying a name; its type
field uses a capital letter to exercise the case-insensitive comparison. -/
def gameApps : AppsMap :=
  [(440, { common := some { type := some "Game",
                            name := some "Team Fortress 2",
                            extra := [] },
           extra := [] })]

/-- A backend apps mapping whose only entry lacks a `common` section. -/
def bareApps : AppsMap :=
  [(10, { common := none, extra := [] })]

/-- CLI arguments requesting app ids 10 and 20, license checks enabled. -/
def argsTwo : AppInfoCmd.Args := { skip_licenses := false, app_ids := [10, 20] }

/-- A non-anonymous session with no licenses loaded yet. -/
def sessNoLic : AppInfoCmd.SessionInfo := { has_licenses := false, is_anon := false }

/-- An anonymous session with no licenses. -/
def sessAnon : AppInfoCmd.SessionInfo := { has_licenses := false, is_anon := true }

end Fixtures

open SteamGateway AppInfoCmd SessionSpec Fixtures

/-- C1 counterexample: with `bob` stored as the last-used account, a
`login` call for `alice` whose external outcome is `InvalidPassword` (a
failed login) returns the failure outcome yet still overwrites
`client/lastuser` with `alice`: a failed login does mutate the persisted
last-used account file, contradicting the claim. -/
theorem login_failure_overwrites_lastuser :
    (login "alice" .InvalidPassword fsLastOnly).fst = .Success .InvalidPassword ∧
    fsLastOnly.read "client/lastuser" = some "bob" ∧
    (login "alice" .InvalidPassword fsLastOnly).snd.read "client/lastuser"
      = some "alice" := by
  exact ⟨rfl, rfl, rfl⟩

/-- C1 amended: `login` persists the calling account identifier as the
last-used account unconditionally - on success and on failure alike - and
returns the outcome of the external login call wrapped in `Success`. -/
theorem login_always_persists_lastuser (user : String) (result : EResult)
    (fs : FileStore) :
    (login user result fs).fst = .Success result ∧
    (login user result fs).snd.read "client/lastuser" = some user := by
  refine ⟨rfl, ?_⟩
  simp [login, FileStore.write, FileStore.read]

/-- C2: `get_product_info` returns the complete unfiltered apps mapping
for every non-falsy backend result; the game-only filtered dictionary it
computes is discarded and never returned.  In particular a mapping whose
only entry lacks a `common` section (which the filter drops entirely) is
still returned in full. -/
theorem get_product_info_returns_unfiltered :
    (∀ data : AppsMap, get_product_info (some data) = .Success data) ∧
    gpi_filtered bareApps = [] ∧ bareApps ≠ [] ∧
    get_product_info (some bareApps) = .Success bareApps := by
  refine ⟨fun data => rfl, rfl, by decide, rfl⟩

/-- C6: on a falsy backend fetch result, both `get_product_info` and
`get_product_name` return `Success` of the empty mapping, not an RPC
error. -/
theorem empty_fetch_is_success_not_error :
    get_product_info none = .Success ([] : AppsMap) ∧
    get_product_name none = .Success ([] : List (Nat × String)) :=
  ⟨rfl, rfl⟩

/-- C7: `list_apps` succeeds with a strictly ascending list containing
exactly the licensed app identifiers of the current session. -/
theorem list_apps_sorted_ascending_exact (licensed : Finset Nat) :
    ∃ l, list_apps licensed = .Success l ∧ l.Sorted (· < ·) ∧
      ∀ a, a ∈ l ↔ a ∈ licensed :=
  ⟨licensed.sort (· ≤ ·), rfl, Finset.sort_sorted_lt licensed,
    fun _ => Finset.mem_sort _⟩

/-- C3: every entry of the mapping returned by `get_product_name` comes
from a backend item whose `common` section has a `name` field and a
`type` field equal to `game` under case-insensitive comparison, and the
entry maps the item identifier to that name. -/
theorem get_product_name_entries_are_named_games (backend : Option AppsMap)
    (result : List (Nat × String)) (id : Nat) (n : String)
    (hres : get_product_name backend = .Success result)
    (hmem : (id, n) ∈ result) :
    ∃ data app, backend = some data ∧ (id, app) ∈ data ∧
      ∃ c, app.common = some c ∧ c.name = some n ∧
        ∃ t, c.type = some t ∧ pyLower t = "game" := by
  cases backend with
  | none =>
    simp only [get_product_name, RpcResult.Success.injEq] at hres
    subst hres
    simp at hmem
  | some data =>
    simp only [get_product_name, RpcResult.Success.injEq] at hres
    subst hres
    rw [List.mem_filterMap] at hmem
    obtain ⟨⟨i, app⟩, hin, hf⟩ := hmem
    dsimp only at hf
    cases happ : app.common with
    | none => rw [happ] at hf; exact absurd hf (by simp)
    | some c =>
      rw [happ] at hf
      dsimp only at hf
      cases htyp : c.type with
      | none => rw [htyp] at hf; exact absurd hf (by simp)
      | some t =>
        rw [htyp] at hf
        dsimp only at hf
        by_cases hg : pyLower t = "game"
        · rw [if_pos hg] at hf
          cases hname : c.name with
          | none => rw [hname] at hf; exact absurd hf (by simp)
          | some nm =>
            rw [hname] at hf
            dsimp only at hf
            simp only [Option.some.injEq, Prod.mk.injEq] at hf
            obtain ⟨hi, hn⟩ := hf
            subst hi; subst hn
            exact ⟨data, app, rfl, hin, c, happ, hname, t, htyp, hg⟩
        · rw [if_neg hg] at hf
          exact absurd hf (by simp)

/-- C3 witness: the theorem applied to a one-entry backend fixture whose
type field is `Game`. -/
theorem get_product_name_entries_are_named_games_witness :
    ∃ data app, (some gameApps : Option AppsMap) = some data ∧
      (440, app) ∈ data ∧
      ∃ c, app.common = some c ∧ c.name = some "Team Fortress 2" ∧
        ∃ t, c.type = some t ∧ pyLower t = "game" :=
  get_product_name_entries_are_named_games (some gameApps)
    [(440, "Team Fortress 2")] 440 "Team Fortress 2" (by decide) (by decide)

/-- C5: `relogin_available` answers `Success true` exactly when the
stored last-user record exists and the corresponding per-user key file
exists, and `Success false` exactly otherwise. -/
theorem relogin_available_iff_saved_session (fs : FileStore) (c : ClientState) :
    ((relogin_available fs c).fst = .Success true ↔
      ∃ user, fs.read "client/lastuser" = some user ∧
        (fs.read ("client/" ++ user ++ ".key")).isSome) ∧
    ((relogin_available fs c).fst = .Success false ↔
      ¬ ∃ user, fs.read "client/lastuser" = some user ∧
        (fs.read ("client/" ++ user ++ ".key")).isSome) := by
  unfold relogin_available
  cases hl : fs.read "client/lastuser" with
  | none => simp
  | some user =>
    cases hk : fs.read ("client/" ++ user ++ ".key") with
    | none => simp [hk]
    | some key => simp [hk]

/-- C5 witness: with both `client/lastuser` and the matching key file
present, `relogin_available` answers true. -/
theorem relogin_available_iff_saved_session_witness :
    (relogin_available fsBoth c0).fst = .Success true :=
  (relogin_available_iff_saved_session fsBoth c0).1.mpr ⟨"bob", rfl, rfl⟩

/-- C10: when `relogin_available` answers true it has set the client
username to the stored last-user value and the client login key to the
contents of that key file; when it answers false the client state is
unchanged. -/
theorem relogin_available_client_mutation (fs : FileStore) (c : ClientState) :
    ((relogin_available fs c).fst = .Success true →
      ∃ user key, fs.read "client/lastuser" = some user ∧
        fs.read ("client/" ++ user ++ ".key") = some key ∧
        (relogin_available fs c).snd =
          { c with username := some user, login_key := some key }) ∧
    ((relogin_available fs c).fst = .Success false →
      (relogin_available fs c).snd = c) := by
  unfold relogin_available
  cases hl : fs.read "client/lastuser" with
  | none => simp
  | some user =>
    cases hk : fs.read ("client/" ++ user ++ ".key") with
    | none => simp [hk]
    | some key =>
      simp only [hk]
      refine ⟨fun _ => ⟨user, key, rfl, hk, rfl⟩, fun h => ?_⟩
      exact absurd h (by simp)

/-- C10 witness: on the empty user-data store the call answers false and
leaves the client state untouched. -/
theorem relogin_available_client_mutation_witness :
    (relogin_available fsEmpty c0).snd = c0 :=
  (relogin_available_client_mutation fsEmpty c0).2 rfl

/-- C4 (spec-modelled): after `logout`, and more generally in any state
other than `LoggedIn`, `list_apps` fails with `NotAuthenticated` instead
of succeeding or blocking. -/
theorem list_apps_not_logged_in_fails (s : AuthState) (licensed : Finset Nat)
    (h : s ≠ .LoggedIn) :
    list_apps_gated s licensed = .error .NotAuthenticated ∧
    list_apps_gated (logout s) licensed = .error .NotAuthenticated := by
  refine ⟨?_, rfl⟩
  cases s with
  | LoggedOut => rfl
  | Authenticating => rfl
  | LoggedIn => exact absurd rfl h
  | Disconnected => rfl

/-- C4 witness: in the logged-out state (also the state right after a
logout) the gated `list_apps` fails with `NotAuthenticated`. -/
theorem list_apps_not_logged_in_fails_witness :
    list_apps_gated .LoggedOut ∅ = .error .NotAuthenticated ∧
    list_apps_gated (logout .LoggedOut) ∅ = .error .NotAuthenticated :=
  list_apps_not_logged_in_fails .LoggedOut ∅ (by decide)

/-- Helper for the license-wait claims: in every run of the command the
wait flag equals the conjunction computed at line 45 of app_info.py,
guarded by the license-check branch. -/
lemma cmd_waited_eq (args : Args) (s : SessionInfo) (licensed : Finset Nat)
    (backend : Option AppsMap) :
    (cmd_apps_product_info args s licensed backend).waited =
      (!args.skip_licenses && (!s.has_licenses && !s.is_anon)) := by
  unfold cmd_apps_product_info fetchStep
  cases args.skip_licenses with
  | true => cases backend <;> simp
  | false =>
    cases firstUnlicensed args.app_ids licensed <;> cases backend <;> simp

/-- C9: for an anonymous session the command never waits for the
license-list event, and whenever the wait happens the session has no
licenses and is not anonymous (the wait itself passes `raises=False`, so
neither waiting nor skipping produces an error). -/
theorem anon_skips_license_wait (args : Args) (s : SessionInfo)
    (licensed : Finset Nat) (backend : Option AppsMap) :
    (s.is_anon = true →
      (cmd_apps_product_info args s licensed backend).waited = false) ∧
    ((cmd_apps_product_info args s licensed backend).waited = true →
      s.has_licenses = false ∧ s.is_anon = false) := by
  constructor
  · intro ha
    rw [cmd_waited_eq]
    simp [ha]
  · intro hw
    rw [cmd_waited_eq] at hw
    simp only [Bool.and_eq_true, Bool.not_eq_true'] at hw
    exact ⟨hw.2.1, hw.2.2⟩

/-- C9 witness: an anonymous session with license checking enabled does
not wait for the license-list event. -/
theorem anon_skips_license_wait_witness :
    (cmd_apps_product_info argsTwo sessAnon ∅ none).waited = false :=
  (anon_skips_license_wait argsTwo sessAnon ∅ none).1 rfl

/-- Helper: with license checking enabled the command reduces to the
license gate followed by the fetch step. -/
lemma cmd_noskip (args : Args) (s : SessionInfo) (licensed : Finset Nat)
    (backend : Option AppsMap) (hskip : args.skip_licenses = false) :
    cmd_apps_product_info args s licensed backend =
      match firstUnlicensed args.app_ids licensed with
      | some a =>
        { waited := (!s.has_licenses && !s.is_anon), fetch_issued := false,
          outcome := .licenseError a }
      | none => fetchStep (!s.has_licenses && !s.is_anon) backend := by
  unfold cmd_apps_product_info
  rw [hskip]
  rfl

/-- C8: with license checking enabled, if some requested app id is not in
the licensed set the command stops with the AccessDenied license error
for an unlicensed requested id and issues no catalog fetch; when every
requested id is licensed the fetch is issued. -/
theorem license_check_gates_fetch (args : Args) (s : SessionInfo)
    (licensed : Finset Nat) (backend : Option AppsMap)
    (hskip : args.skip_licenses = false) :
    ((∃ a ∈ args.app_ids, a ∉ licensed) →
      ∃ a ∈ args.app_ids, a ∉ licensed ∧
        (cmd_apps_product_info args s licensed backend).outcome
          = .licenseError a ∧
        (cmd_apps_product_info args s licensed backend).fetch_issued = false) ∧
    ((∀ a ∈ args.app_ids, a ∈ licensed) →
      (cmd_apps_product_info args s licensed backend).fetch_issued = true) := by
  constructor
  · rintro ⟨a, ha, hnl⟩
    have hne : firstUnlicensed args.app_ids licensed ≠ none := by
      intro hnone
      have h0 : List.find? (fun x => decide (x ∉ licensed)) args.app_ids
          = none := hnone
      rw [List.find?_eq_none] at h0
      have h1 := h0 a ha
      simp at h1
      exact hnl h1
    obtain ⟨b, hb⟩ := Option.ne_none_iff_exists'.mp hne
    have hb' : List.find? (fun x => decide (x ∉ licensed)) args.app_ids
        = some b := hb
    have hbmem : b ∈ args.app_ids := List.mem_of_find?_eq_some hb'
    have hbp : b ∉ licensed := by simpa using List.find?_some hb'
    refine ⟨b, hbmem, hbp, ?_, ?_⟩ <;>
      rw [cmd_noskip args s licensed backend hskip, hb]
  · intro hall
    have hnone : firstUnlicensed args.app_ids licensed = none := by
      show List.find? (fun x => decide (x ∉ licensed)) args.app_ids = none
      rw [List.find?_eq_none]
      intro x hx
      simp [hall x hx]
    rw [cmd_noskip args s licensed backend hskip, hnone]
    cases backend <;> rfl

/-- C8 witness: requesting app ids 10 and 20 with only 10 licensed stops
with the license error for 20 and issues no fetch. -/
theorem license_check_gates_fetch_witness :
    ∃ a ∈ argsTwo.app_ids, a ∉ ({10} : Finset Nat) ∧
      (cmd_apps_product_info argsTwo sessNoLic {10} none).outcome
        = .licenseError a ∧
      (cmd_apps_product_info argsTwo sessNoLic {10} none).fetch_issued
        = false :=
  (license_check_gates_fetch argsTwo sessNoLic {10} none rfl).1
    ⟨20, by decide, by decide⟩
